import Mathlib

/-!
# Shallow embedding of Muster's CDbw validity index (`cdbw.cpp`)

This file embeds the CDbw computation engine of the Muster library
(`dbscan_cluster` and `CDbw` in namespace `cluster`, file `cdbw.cpp`) and
proves properties of its natural-language specification against it.

Modelling conventions:
* `double` values are modelled as exact real numbers (`ℝ`); IEEE rounding is
  outside the model.  Divisions whose IEEE result would be `NaN` or `±inf`
  (division by zero) use Lean's total division, which returns `0`; every
  theorem that touches such a division makes the zero-denominator situation
  explicit rather than relying on the junk value.
* `std::vector` indexing `v[i]` is modelled by total list indexing with a
  default element (`List.getD`); all in-contract uses are in range.
* The `point` class and the `partition` class are declared outside the given
  sources; their data model is taken from the spec (2-D coordinates with
  Euclidean distance; per-object cluster ids with a noise sentinel plus a
  cluster count).
* The ANN kd-tree (`annkFRSearch`) is an external library; the fixed-radius
  query it implements is modelled from the spec as "all point indices within
  the given Euclidean radius of the query point".
-/

namespace Muster

noncomputable section

/-- Modelled from the spec: a 2-D point `{x : float64, y : float64}` with
componentwise addition, scalar division and Euclidean distance (the `point`
class is external to the given sources). -/
structure Point where
  x : ℝ
  y : ℝ

instance : Inhabited Point := ⟨⟨0, 0⟩⟩

/-- `point::operator+=` (componentwise addition). -/
def Point.add (p q : Point) : Point := ⟨p.x + q.x, p.y + q.y⟩

/-- `point::operator/=` (componentwise division by a scalar). -/
def Point.divScalar (p : Point) (c : ℝ) : Point := ⟨p.x / c, p.y / c⟩

/-- `point::distance`: Euclidean distance. -/
def Point.distance (p q : Point) : ℝ :=
  Real.sqrt ((p.x - q.x) ^ 2 + (p.y - q.y) ^ 2)

/-- `points_[i]` — total model of `std::vector<point>` indexing. -/
def pointAt (pts : List Point) (i : ℕ) : Point := pts.getD i default

/-- Modelled from the spec: the external `partition` class, as consumed by
the engine — one cluster id (or the `UNCLASSIFIED` noise sentinel, modelled
by `none`) per object, plus the cluster count. -/
structure Partition where
  cluster_ids : List (Option ℕ)
  num_clusters : ℕ

/-- `dbscan_cluster`: per-cluster aggregate.  The C++ members `points_`
(a reference to the global point vector) is passed explicitly to each
operation, and `cluster_id_` (a reference to a dead loop variable, never
read by the algorithm) is dropped.  Default field values model the
default-constructed object (uninitialised doubles modelled as `0`; no claim
depends on them before they are assigned). -/
structure DbscanCluster where
  cluster_points_ : List ℕ
  centroid_ : Point
  representatives_ : List ℕ
  stdev_ : ℝ

instance : Inhabited DbscanCluster := ⟨⟨[], default, [], 0⟩⟩

/-- `clusters_[i]` — total model of `std::vector<dbscan_cluster>` indexing. -/
def clusterAt (clusters : List DbscanCluster) (i : ℕ) : DbscanCluster :=
  clusters.getD i default

/-- `dbscan_cluster::add_point`. -/
def add_point (c : DbscanCluster) (point_id : ℕ) : DbscanCluster :=
  { c with cluster_points_ := c.cluster_points_ ++ [point_id] }

/-- Lines 66–74 of `compute_data`: `centroid_ = points_[cluster_points_[0]]`
followed by `+=` over the remaining members. -/
def sumCentroid (pts : List Point) (members : List ℕ) : Point :=
  members.tail.foldl (fun acc i => acc.add (pointAt pts i))
    (pointAt pts (members.headD 0))

/-- The centroid as computed by `compute_data`: the running sum, divided by
the member count only when the cluster has more than one member. -/
def centroidOf (pts : List Point) (members : List ℕ) : Point :=
  if members.length > 1 then
    (sumCentroid pts members).divScalar members.length
  else
    sumCentroid pts members

/-- Lines 77–81 of `compute_data`: the sum of squared centroid-to-member
distances (`val * val` accumulated over the members). -/
def sumSquares (pts : List Point) (centroid : Point) (members : List ℕ) : ℝ :=
  members.foldl
    (fun acc i =>
      acc + centroid.distance (pointAt pts i) * centroid.distance (pointAt pts i))
    0

/-- Numerator of the `stdev_` formula at line 83 (`sum_squares`). -/
def stdevNumerator (pts : List Point) (c : DbscanCluster) : ℝ :=
  sumSquares pts (centroidOf pts c.cluster_points_) c.cluster_points_

/-- Denominator of the `stdev_` formula at line 83
(`cluster_points_.size() - 1`, a `size_t` subtraction converted to
`double`). -/
def stdevDenominator (c : DbscanCluster) : ℝ :=
  ((c.cluster_points_.length - 1 : ℕ) : ℝ)

/-- `dbscan_cluster::compute_data` (lines 60–84). -/
def compute_data (pts : List Point) (c : DbscanCluster) : DbscanCluster :=
  if c.cluster_points_.length = 0 then c
  else
    { c with
      centroid_ := centroidOf pts c.cluster_points_,
      stdev_ := Real.sqrt (stdevNumerator pts c / stdevDenominator c) }

/-- `std::numeric_limits<double>::min()` — the smallest positive normal
double, `2^(-1022)` (used at lines 90 and 106 as the initial value of
`max_distance`). -/
def dblMin : ℝ := ((2 : ℝ) ^ (1022 : ℕ))⁻¹

/-- `std::numeric_limits<double>::max()`, `2^1024 - 2^971` (used at lines
131 and 336 as the initial value of minimum searches). -/
def dblMax : ℝ := (2 : ℝ) ^ (1024 : ℕ) - (2 : ℝ) ^ (971 : ℕ)

/-- The inner scan of `choose_representatives` (lines 109–119): over all
member positions `j`, track `(max_distance, representative_id,
representative_position)`, updating when the point is unused and strictly
farther from `last_representative` than the current maximum. -/
def scanReps (pts : List Point) (members : List ℕ) (used : List Bool)
    (last : Point) (init : ℝ × ℕ × ℕ) : ℝ × ℕ × ℕ :=
  (List.range members.length).foldl
    (fun st j =>
      if used.getD j false then st
      else
        if last.distance (pointAt pts (members.getD j 0)) > st.1 then
          (last.distance (pointAt pts (members.getD j 0)), members.getD j 0, j)
        else st)
    init

/-- The loop state of `choose_representatives`.  `last` models the C++
variable `last_representative`, which is **a reference bound to
`centroid_`** (line 99): every write to it (line 123) lands in the stored
centroid, so the final centroid is part of the loop state. -/
structure RepLoopState where
  used : List Bool
  reps : List ℕ
  repPos : ℕ
  last : Point

/-- One iteration of the outer loop of `choose_representatives` (lines
105–124).  `max_distance` is reset to `dblMin` and `representative_id` to
`0` at the top of each iteration, while `representative_position` keeps its
value from the previous iteration (it is declared outside the loop). -/
def repStep (pts : List Point) (members : List ℕ) (st : RepLoopState) (i : ℕ) :
    RepLoopState :=
  let scanned := scanReps pts members st.used st.last (dblMin, 0, st.repPos)
  { used := st.used.set scanned.2.2 true,
    reps := st.reps.set i scanned.2.1,
    repPos := scanned.2.2,
    last := pointAt pts scanned.2.1 }

/-- `dbscan_cluster::choose_representatives` (lines 89–125).  The final
`last` value is written back to `centroid_` because of the reference
aliasing described at `RepLoopState`. -/
def choose_representatives (pts : List Point) (c : DbscanCluster) (r : ℕ) :
    DbscanCluster :=
  if r ≥ c.cluster_points_.length then
    { c with representatives_ := c.cluster_points_ }
  else
    let final :=
      (List.range r).foldl (repStep pts c.cluster_points_)
        { used := List.replicate c.cluster_points_.length false,
          reps := List.replicate r 0,
          repPos := 0,
          last := c.centroid_ }
    { c with representatives_ := final.reps, centroid_ := final.last }

/-- `dbscan_cluster::closest_representative` (lines 130–144).  The C++
reads `representatives_[0]` unconditionally; for an empty representative
list that read is out of contract and is modelled by the default index. -/
def closest_representative (pts : List Point) (c : DbscanCluster) (p : Point) : ℕ :=
  (c.representatives_.tail.foldl
    (fun st rid =>
      if p.distance (pointAt pts rid) < st.1 then
        (p.distance (pointAt pts rid), rid)
      else st)
    (p.distance (pointAt pts (c.representatives_.headD 0)),
     c.representatives_.headD 0)).2

/-- `dbscan_cluster::shrunk_representatives` (lines 149–161). -/
def shrunk_representatives (pts : List Point) (c : DbscanCluster) (s : ℝ) :
    List Point :=
  c.representatives_.map (fun rid =>
    ⟨(pointAt pts rid).x + s * (c.centroid_.x - (pointAt pts rid).x),
     (pointAt pts rid).y + s * (c.centroid_.y - (pointAt pts rid).y)⟩)

/-! ## The CDbw engine -/

/-- Sentinel kind returned by `compute` when the criterion is undefined
(cluster count 1), mirroring the `numeric_limits` branches at lines
202–210. -/
inductive UndefKind where
  | quietNaN
  | infinity
  | maxFinite
deriving DecidableEq

/-- Result of `CDbw::compute`: either the "undefined" sentinel double from
the one-cluster short circuit, or the computed score. -/
inductive CdbwResult where
  | undef (k : UndefKind)
  | score (x : ℝ)

/-- Whether a `compute` result came back through the normal scoring path
(the return at line 227) rather than the one-cluster short circuit. -/
def CdbwResult.isScore : CdbwResult → Bool
  | .score _ => true
  | .undef _ => false

/-- `std::numeric_limits<double>::has_quiet_NaN` for IEEE-754 doubles. -/
def doubleHasQuietNaN : Bool := true

/-- `std::numeric_limits<double>::has_infinity` for IEEE-754 doubles. -/
def doubleHasInfinity : Bool := true

/-- The conditional chain of lines 202–210, as a function of the two
`numeric_limits` flags. -/
def undefinedValue (hasNaN hasInf : Bool) : UndefKind :=
  if hasNaN then .quietNaN else if hasInf then .infinity else .maxFinite

/-- The `CDbw` engine state: the read-only inputs, the cluster aggregates,
and the scalar members.  `RCRs_` is the `k × k` matrix of RCR pair lists,
modelled as a function (unfilled cells hold the default empty vector).
`r_` and `intra_cluster_density_change_` are not in the constructor's
initialiser list (they are written before first read); they are modelled
as `0` initially. -/
structure CDbw where
  p_ : Partition
  points_ : List Point
  clusters_ : List DbscanCluster
  RCRs_ : ℕ → ℕ → List (ℕ × ℕ)
  r_ : ℕ
  cdbw_ : ℝ
  separation_ : ℝ
  compactness_ : ℝ
  cohesion_ : ℝ
  intra_cluster_density_change_ : ℝ

/-- The point-insertion loop of `create_clusters` (lines 259–270): each
object that is not `UNCLASSIFIED` is appended to its cluster's member
list. -/
def addPoints (p : Partition) (clusters : List DbscanCluster) :
    List DbscanCluster :=
  (List.range p.cluster_ids.length).foldl
    (fun cs i =>
      match p.cluster_ids.getD i none with
      | none => cs
      | some cid => cs.set cid (add_point (clusterAt cs cid) i))
    clusters

/-- `CDbw::create_clusters` (lines 251–277): default-construct one cluster
per id, distribute the classified points, and run `compute_data` on each.
The ANN data-point array and kd-tree hold a snapshot of all coordinates;
since the model's points are immutable, range queries read `points_`
directly. -/
def create_clusters (p : Partition) (pts : List Point) : List DbscanCluster :=
  ((addPoints p (List.replicate p.num_clusters default)).map (compute_data pts))

/-- `CDbw::CDbw` (lines 186–189): store the inputs, zero the scalar
members, and run `create_clusters`.  The constructor takes no
representative count and performs no validation. -/
def mkCDbw (p : Partition) (pts : List Point) : CDbw :=
  { p_ := p,
    points_ := pts,
    clusters_ := create_clusters p pts,
    RCRs_ := fun _ _ => [],
    r_ := 0,
    cdbw_ := 0,
    separation_ := 0,
    compactness_ := 0,
    cohesion_ := 0,
    intra_cluster_density_change_ := 0 }

/-- `CDbw::range_query` (lines 515–535).  Modelled from the spec: the ANN
kd-tree fixed-radius search (external library) returns the indices of all
points within the given Euclidean radius of the query point; the source
wrapper squares the radius (`radix2 = radix * radix`) and the squared
radius is compared against squared distances. -/
def range_query (pts : List Point) (u : Point) (radix : ℝ) : List ℕ :=
  (List.range pts.length).filter (fun i =>
    decide ((u.x - (pointAt pts i).x) ^ 2 + (u.y - (pointAt pts i).y) ^ 2 ≤
      radix * radix))

/-- `CDbw::compute_rcrs_i_j` (lines 294–325): closest-representative
candidates in both directions, then the double nested scan that pushes a
candidate pair each time a matching reverse candidate is found. -/
def compute_rcrs_i_j (pts : List Point) (clusters : List DbscanCluster)
    (c_i c_j : ℕ) : List (ℕ × ℕ) :=
  let rcs_i_j := (clusterAt clusters c_i).representatives_.map
    (fun v => (v, closest_representative pts (clusterAt clusters c_j) (pointAt pts v)))
  let rcs_j_i := (clusterAt clusters c_j).representatives_.map
    (fun v => (v, closest_representative pts (clusterAt clusters c_i) (pointAt pts v)))
  rcs_i_j.foldl
    (fun res pr =>
      rcs_j_i.foldl
        (fun res2 qr =>
          if pr.1 = qr.2 ∧ pr.2 = qr.1 then res2 ++ [pr] else res2)
        res)
    []

/-- `CDbw::compute_rcrs` (lines 282–289): fill every off-diagonal cell of
the `k × k` matrix; all other cells keep the default empty vector. -/
def compute_rcrs (pts : List Point) (clusters : List DbscanCluster) (k : ℕ) :
    ℕ → ℕ → List (ℕ × ℕ) :=
  fun i j =>
    if i < k ∧ j < k ∧ i ≠ j then compute_rcrs_i_j pts clusters i j else []

/-- Sum of the point-pair distances of an RCR list (loop of lines
436–438). -/
def sumPairDistances (pts : List Point) (rcr : List (ℕ × ℕ)) : ℝ :=
  rcr.foldl
    (fun acc pr => acc + (pointAt pts pr.1).distance (pointAt pts pr.2)) 0

/-- `CDbw::distance_between_clusters` (lines 432–441). -/
def distance_between_clusters (st : CDbw) (c_i c_j : ℕ) : ℝ :=
  sumPairDistances st.points_ (st.RCRs_ c_i c_j) / (st.RCRs_ c_i c_j).length

/-- The membership test of the cardinality counting loops (lines 420–421
and 498–499): the point's cluster id equals one of the targets (the noise
sentinel matches nothing). -/
def cidMatches (p : Partition) (x : ℕ) (c_i c_j : ℕ) : Bool :=
  match p.cluster_ids.getD x none with
  | none => false
  | some cid => cid = c_i || cid = c_j

/-- `CDbw::cardinality(point, double, medoid_id, medoid_id)` (lines
413–427).  `number_of_points` and the two cluster sizes are `size_t`, so
the quotient at line 426 is an **integer** division, converted to `double`
on return. -/
def cardinality2 (st : CDbw) (u : Point) (radix : ℝ) (c_i c_j : ℕ) : ℝ :=
  (((range_query st.points_ u radix).filter
      (fun x => cidMatches st.p_ x c_i c_j)).length /
    ((clusterAt st.clusters_ c_i).cluster_points_.length +
      (clusterAt st.clusters_ c_j).cluster_points_.length) : ℕ)

/-- `CDbw::cardinality(point, double, medoid_id)` (lines 491–505).  Here
the count is multiplied by `1.0` first, so the division is a floating
(real) division. -/
def cardinality1 (st : CDbw) (u : Point) (radix : ℝ) (c_i : ℕ) : ℝ :=
  (((range_query st.points_ u radix).filter
      (fun x => cidMatches st.p_ x c_i c_i)).length : ℝ) * 1 /
    ((clusterAt st.clusters_ c_i).cluster_points_.length : ℝ)

/-- `CDbw::density_between_clusters` (lines 383–407). -/
def density_between_clusters (st : CDbw) (c_i c_j : ℕ) : ℝ :=
  let avg_stdev := Real.sqrt
    (((clusterAt st.clusters_ c_i).stdev_ * (clusterAt st.clusters_ c_i).stdev_ +
      (clusterAt st.clusters_ c_j).stdev_ * (clusterAt st.clusters_ c_j).stdev_) / 2)
  ((st.RCRs_ c_i c_j).foldl
    (fun acc pr =>
      acc +
        (pointAt st.points_ pr.1).distance (pointAt st.points_ pr.2) / (2 * avg_stdev) *
          cardinality2 st
            (((pointAt st.points_ pr.1).add (pointAt st.points_ pr.2)).divScalar 2)
            avg_stdev c_i c_j)
    0) /
    (st.RCRs_ c_i c_j).length

/-- `CDbw::inter_cluster_density` (lines 357–378): mean over clusters of
the maximum pairwise density, the maximum search starting from `dblMin`. -/
def inter_cluster_density (st : CDbw) : ℝ :=
  ((List.range st.clusters_.length).foldl
    (fun acc i =>
      acc +
        (List.range st.clusters_.length).foldl
          (fun mx j =>
            if i ≠ j then
              if density_between_clusters st i j > mx then
                density_between_clusters st i j
              else mx
            else mx)
          dblMin)
    0) /
    st.clusters_.length

/-- `CDbw::compute_separation` (lines 330–352): mean over clusters of the
minimum pairwise distance (minimum search starting from `dblMax`), damped
by the inter-cluster density. -/
def compute_separation (st : CDbw) : ℝ :=
  (((List.range st.clusters_.length).foldl
    (fun acc i =>
      acc +
        (List.range st.clusters_.length).foldl
          (fun mn j =>
            if i ≠ j then
              if distance_between_clusters st i j < mn then
                distance_between_clusters st i j
              else mn
            else mn)
          dblMax)
    0) /
    st.clusters_.length) /
    (1 + inter_cluster_density st)

/-- `CDbw::density` (lines 477–489): sum the single-cluster cardinalities
of every shrunk representative of every cluster, then divide by the
configured representative count `r_`. -/
def density (st : CDbw) (s : ℝ) : ℝ :=
  ((List.range st.clusters_.length).foldl
    (fun acc i =>
      (shrunk_representatives st.points_ (clusterAt st.clusters_ i) s).foldl
        (fun acc2 q =>
          acc2 + cardinality1 st q (clusterAt st.clusters_ i).stdev_ i)
        acc)
    0) /
    (st.r_ : ℝ)

/-- `CDbw::intra_cluster_density` (lines 467–475). -/
def intra_cluster_density (st : CDbw) (s : ℝ) : ℝ :=
  density st s /
    (st.clusters_.length *
      Real.sqrt
        ((st.clusters_.foldl (fun acc c => acc + c.stdev_ * c.stdev_) 0) /
          st.clusters_.length))

/-- The shrink-factor loop head `for (double s = 0.1; s <= 0.8; s += 0.1)`
(line 451), written with explicit fuel (any fuel bound above the loop's
iteration count gives the same list; `9` suffices). -/
def sSchedule : ℕ → ℝ → List ℝ
  | 0, _ => []
  | fuel + 1, s => if s ≤ 0.8 then s :: sSchedule fuel (s + 0.1) else []

/-- The list of shrink factors actually visited by the loop at line 451. -/
def sValues : List ℝ := sSchedule 9 0.1

/-- The change accumulation of lines 458–462: sum of
`|vals[i] - vals[i-1]|` for `i = 1 .. vals.size() - 1`. -/
def adjacentChangeSum (vals : List ℝ) : ℝ :=
  ((List.range vals.length).drop 1).foldl
    (fun acc i => acc + |vals.getD i 0 - vals.getD (i - 1) 0|) 0

/-- `CDbw::compactness_and_intra_density_changes` (lines 447–465), returning
the pair (compactness, intra-cluster density change): the mean of the
intra-cluster densities over the visited shrink factors divided by `8`, and
the summed adjacent absolute differences divided by `7`. -/
def compactness_and_intra_density_changes (st : CDbw) : ℝ × ℝ :=
  let vals := sValues.map (intra_cluster_density st)
  (vals.foldl (· + ·) 0 / 8, adjacentChangeSum vals / 7)

/-- `CDbw::compute_cohesion` (lines 508–510), with the
`intra_cluster_density_change_` member passed explicitly. -/
def compute_cohesion (compact change : ℝ) : ℝ := compact / (1 + change)

/-- `CDbw::compute` (lines 196–228): the one-cluster short circuit, then
representative selection (which, through the `last_representative`
aliasing, rewrites each stored centroid), RCR matching, and the score
composition `cohesion * separation * compactness`. -/
def compute (st : CDbw) (r : ℕ) : CdbwResult × CDbw :=
  if st.p_.num_clusters = 1 then
    (.undef (undefinedValue doubleHasQuietNaN doubleHasInfinity), st)
  else
    let cl := st.clusters_.map (fun c => choose_representatives st.points_ c r)
    let st2 : CDbw :=
      { st with
        r_ := r
        clusters_ := cl
        RCRs_ := compute_rcrs st.points_ cl cl.length }
    let sep := compute_separation st2
    let pc := compactness_and_intra_density_changes st2
    let coh := compute_cohesion pc.1 pc.2
    (.score (coh * sep * pc.1),
     { st2 with
        separation_ := sep,
        compactness_ := pc.1,
        cohesion_ := coh,
        intra_cluster_density_change_ := pc.2,
        cdbw_ := coh * sep * pc.1 })

/-- The two-cluster cardinality as the spec states it: the neighbourhood
count divided, **as a real-valued quotient**, by the sum of the two cluster
sizes (for comparison against the source's `cardinality2`). -/
def cardinality2Spec (st : CDbw) (u : Point) (radix : ℝ) (c_i c_j : ℕ) : ℝ :=
  ((((range_query st.points_ u radix).filter
      (fun x => cidMatches st.p_ x c_i c_j)).length : ℕ) : ℝ) /
    (((clusterAt st.clusters_ c_i).cluster_points_.length +
      (clusterAt st.clusters_ c_j).cluster_points_.length : ℕ) : ℝ)

/-! ## Concrete instances used to settle the claims -/

/-- Five collinear points: cluster 0 holds indices 0–2, cluster 1 holds
indices 3–4. -/
def pts1 : List Point := [⟨0, 0⟩, ⟨2, 0⟩, ⟨4, 0⟩, ⟨100, 0⟩, ⟨101, 0⟩]

/-- The partition of `pts1` into two clusters. -/
def P1 : Partition := ⟨[some 0, some 0, some 0, some 1, some 1], 2⟩

/-- The engine constructed over `P1` and `pts1`. -/
def engine0 : CDbw := mkCDbw P1 pts1

/-- Cluster 0 of `engine0` as built by the constructor: members `[0,1,2]`,
centroid `(2,0)`, stdev `2`. -/
def clA0 : DbscanCluster := ⟨[0, 1, 2], ⟨2, 0⟩, [], 2⟩

/-- Cluster 1 of `engine0` as built by the constructor: members `[3,4]`,
centroid `(100.5, 0)`, stdev `sqrt (1/2)`. -/
def clA1 : DbscanCluster := ⟨[3, 4], ⟨201 / 2, 0⟩, [], Real.sqrt (1 / 2)⟩

/-- Cluster 0 after the first `choose_representatives(1)`: representative
`[0]`, and the stored centroid overwritten with point 0. -/
def clB0 : DbscanCluster := ⟨[0, 1, 2], ⟨0, 0⟩, [0], 2⟩

/-- Cluster 1 after the first `choose_representatives(1)`. -/
def clB1 : DbscanCluster := ⟨[3, 4], ⟨100, 0⟩, [3], Real.sqrt (1 / 2)⟩

/-- Cluster 0 after the second `choose_representatives(1)`: starting from
the overwritten centroid `(0,0)` the farthest member is now point 2. -/
def clC0 : DbscanCluster := ⟨[0, 1, 2], ⟨4, 0⟩, [2], 2⟩

/-- Cluster 1 after the second `choose_representatives(1)`. -/
def clC1 : DbscanCluster := ⟨[3, 4], ⟨101, 0⟩, [4], Real.sqrt (1 / 2)⟩

/-- The engine state after the first `compute 1` on `engine0`. -/
def engineAfter1 : CDbw :=
  { p_ := P1,
    points_ := pts1,
    clusters_ := [clB0, clB1],
    RCRs_ := compute_rcrs pts1 [clB0, clB1] 2,
    r_ := 1,
    cdbw_ := 7 / 18 * (100 / (1 + dblMin)) * (7 / 18),
    separation_ := 100 / (1 + dblMin),
    compactness_ := 7 / 18,
    cohesion_ := 7 / 18,
    intra_cluster_density_change_ := 0 }

/-- Four points, the last three sharing one coordinate (used for the
degenerate representative-selection case). -/
def pts2 : List Point := [⟨0, 0⟩, ⟨1, 0⟩, ⟨1, 0⟩, ⟨1, 0⟩]

/-- A cluster of the three coincident points of `pts2` (centroid and stdev
as `compute_data` yields them: `(1,0)` and `0`). -/
def clDup : DbscanCluster := ⟨[1, 2, 3], ⟨1, 0⟩, [], 0⟩

/-- Two single-point clusters with representatives already chosen (used to
instantiate the RCR mirror property). -/
def pts7 : List Point := [⟨0, 0⟩, ⟨5, 0⟩]

/-- The two cluster aggregates over `pts7`. -/
def cl7 : List DbscanCluster := [⟨[0], ⟨0, 0⟩, [0], 0⟩, ⟨[1], ⟨5, 0⟩, [1], 0⟩]

end

/-! ## General helper lemmas -/

lemma dblMin_pos : 0 < dblMin := by unfold dblMin; positivity

lemma dblMin_lt_half : dblMin < 1 / 2 := by
  unfold dblMin; rw [inv_lt_comm₀] <;> norm_num

lemma dblMin_lt {q : ℝ} (h : 1 / 2 ≤ q) : dblMin < q :=
  lt_of_lt_of_le dblMin_lt_half h

lemma lt_dblMax {q : ℝ} (h : q ≤ 1000) : q < dblMax := by
  refine lt_of_le_of_lt h ?_
  unfold dblMax
  norm_num

lemma distance_horizontal (a c : ℝ) :
    Point.distance ⟨a, 0⟩ ⟨c, 0⟩ = |a - c| := by
  simp [Point.distance, Real.sqrt_sq_eq_abs]

lemma sqrt_four : Real.sqrt 4 = 2 := by
  rw [show (4 : ℝ) = 2 ^ 2 by norm_num, Real.sqrt_sq (by norm_num : (0:ℝ) ≤ 2)]

lemma sqrt_nine_div_four : Real.sqrt (9 / 4) = 3 / 2 := by
  rw [show (9 / 4 : ℝ) = (3 / 2) ^ 2 by norm_num,
    Real.sqrt_sq (by norm_num : (0:ℝ) ≤ 3 / 2)]

lemma mul_self_sqrt_half : Real.sqrt (1 / 2) * Real.sqrt (1 / 2) = 1 / 2 :=
  Real.mul_self_sqrt (by norm_num)

lemma sValues_eq : sValues = [0.1, 0.2, 0.3, 0.4, 0.5, 0.6, 0.7, 0.8] := by
  norm_num [sValues, sSchedule]

/-! ## C10 — shrinking with factor 0 is the identity on representatives -/

/-- Claim C10: for every cluster, `shrunk_representatives(0)` returns exactly the
original representative points, coordinate for coordinate. -/
theorem shrunk_representatives_zero (pts : List Point) (c : DbscanCluster) :
    shrunk_representatives pts c 0 =
      c.representatives_.map (fun rid => pointAt pts rid) := by
  unfold shrunk_representatives
  refine List.map_congr_left (fun rid _ => ?_)
  simp

/-! ## C2 — frame of `choose_representatives` -/

/-- Claim C2, amended: `choose_representatives(r)` never modifies the member
list or the stdev field, and when `r ≥ cluster_size` (the early-return
branch) it also leaves the centroid unchanged.  (When `r < cluster_size`
the centroid **is** overwritten — see the counterexample.) -/
theorem choose_representatives_frame (pts : List Point) (c : DbscanCluster)
    (r : ℕ) :
    ((choose_representatives pts c r).cluster_points_ = c.cluster_points_ ∧
      (choose_representatives pts c r).stdev_ = c.stdev_) ∧
    (c.cluster_points_.length ≤ r →
      (choose_representatives pts c r).centroid_ = c.centroid_) := by
  unfold choose_representatives
  by_cases h : r ≥ c.cluster_points_.length
  · rw [if_pos h]
    exact ⟨⟨rfl, rfl⟩, fun _ => rfl⟩
  · rw [if_neg h]
    exact ⟨⟨rfl, rfl⟩, fun hh => absurd hh h⟩

/-- Witness for `choose_representatives_frame` at a concrete input. -/
theorem choose_representatives_frame_witness :
    ((choose_representatives pts1 clA1 5).cluster_points_ = clA1.cluster_points_ ∧
      (choose_representatives pts1 clA1 5).stdev_ = clA1.stdev_) ∧
    (choose_representatives pts1 clA1 5).centroid_ = clA1.centroid_ :=
  ⟨(choose_representatives_frame pts1 clA1 5).1,
   (choose_representatives_frame pts1 clA1 5).2 (by norm_num [clA1])⟩

/-! ## C8 — singleton clusters divide zero by zero in the stdev formula -/

/-- Claim C8: for a cluster with exactly one member, the stdev formula's
numerator (`sum_squares`) and denominator (`size - 1`) are both zero — in
IEEE double arithmetic `0.0 / 0.0` is a quiet NaN — and `compute_data`
stores `sqrt` of exactly that quotient, with no special case for the
singleton. -/
theorem stdev_singleton (pts : List Point) (c : DbscanCluster)
    (h : c.cluster_points_.length = 1) :
    stdevNumerator pts c = 0 ∧ stdevDenominator c = 0 ∧
      (compute_data pts c).stdev_ =
        Real.sqrt (stdevNumerator pts c / stdevDenominator c) := by
  obtain ⟨i, hi⟩ := List.length_eq_one.mp h
  refine ⟨?_, ?_, ?_⟩
  · unfold stdevNumerator sumSquares centroidOf sumCentroid
    rw [hi]
    simp [Point.distance]
  · unfold stdevDenominator
    rw [hi]
    norm_num
  · unfold compute_data
    rw [if_neg (by rw [h]; norm_num)]

/-- Witness for `stdev_singleton` at a concrete singleton cluster. -/
theorem stdev_singleton_witness :
    stdevNumerator [⟨0, 0⟩, ⟨3, 0⟩] ⟨[1], ⟨3, 0⟩, [], 0⟩ = 0 ∧
      stdevDenominator ⟨[1], ⟨3, 0⟩, [], 0⟩ = 0 ∧
      (compute_data [⟨0, 0⟩, ⟨3, 0⟩] ⟨[1], ⟨3, 0⟩, [], 0⟩).stdev_ =
        Real.sqrt (stdevNumerator [⟨0, 0⟩, ⟨3, 0⟩] ⟨[1], ⟨3, 0⟩, [], 0⟩ /
          stdevDenominator ⟨[1], ⟨3, 0⟩, [], 0⟩) :=
  stdev_singleton [⟨0, 0⟩, ⟨3, 0⟩] ⟨[1], ⟨3, 0⟩, [], 0⟩ rfl

/-! ## C5 — one-cluster short circuit -/

/-- Claim C5: with exactly one cluster, `compute(r)` returns the undefined
sentinel — the quiet NaN, since IEEE doubles have one; the conditional
chain prefers NaN, then +infinity, then the maximum finite double — and
returns the state unchanged: representative selection, RCR matching and
scoring never run, and the four stored scalars keep their values. -/
theorem compute_single_cluster (st : CDbw) (r : ℕ)
    (h : st.p_.num_clusters = 1) :
    compute st r = (.undef .quietNaN, st) ∧
      undefinedValue doubleHasQuietNaN doubleHasInfinity = .quietNaN ∧
      undefinedValue false true = .infinity ∧
      undefinedValue false false = .maxFinite := by
  refine ⟨?_, rfl, rfl, rfl⟩
  unfold compute
  rw [if_pos h]
  rfl

/-- Witness for `compute_single_cluster` on a one-cluster engine. -/
theorem compute_single_cluster_witness :
    compute (mkCDbw ⟨[some 0], 1⟩ [⟨0, 0⟩]) 5 =
        (.undef .quietNaN, mkCDbw ⟨[some 0], 1⟩ [⟨0, 0⟩]) ∧
      undefinedValue doubleHasQuietNaN doubleHasInfinity = .quietNaN ∧
      undefinedValue false true = .infinity ∧
      undefinedValue false false = .maxFinite :=
  compute_single_cluster (mkCDbw ⟨[some 0], 1⟩ [⟨0, 0⟩]) 5 rfl

/-! ## C7 — the RCR matching is mirror-symmetric as a set of pairs -/

lemma mem_innerFold (pr : ℕ × ℕ) (l acc : List (ℕ × ℕ)) (x : ℕ × ℕ) :
    x ∈ l.foldl
        (fun res2 qr => if pr.1 = qr.2 ∧ pr.2 = qr.1 then res2 ++ [pr] else res2)
        acc ↔
      x ∈ acc ∨ (x = pr ∧ ∃ qr ∈ l, pr.1 = qr.2 ∧ pr.2 = qr.1) := by
  induction l generalizing acc with
  | nil => simp
  | cons hd tl ih =>
    rw [List.foldl_cons]
    by_cases h : pr.1 = hd.2 ∧ pr.2 = hd.1
    · rw [if_pos h, ih]
      simp only [List.mem_append, List.mem_cons, List.not_mem_nil, or_false]
      constructor
      · rintro (⟨ha | ha⟩ | ⟨rfl, qr, hqr, hP⟩)
        · exact Or.inl ha
        · exact Or.inr ⟨ha, hd, Or.inl rfl, h⟩
        · exact Or.inr ⟨rfl, qr, Or.inr hqr, hP⟩
      · rintro (ha | ⟨rfl, qr, (rfl | hqr), hP⟩)
        · exact Or.inl (Or.inl ha)
        · exact Or.inl (Or.inr rfl)
        · exact Or.inr ⟨rfl, qr, hqr, hP⟩
    · rw [if_neg h, ih]
      simp only [List.mem_cons]
      constructor
      · rintro (ha | ⟨rfl, qr, hqr, hP⟩)
        · exact Or.inl ha
        · exact Or.inr ⟨rfl, qr, Or.inr hqr, hP⟩
      · rintro (ha | ⟨rfl, qr, (rfl | hqr), hP⟩)
        · exact Or.inl ha
        · exact absurd hP h
        · exact Or.inr ⟨rfl, qr, hqr, hP⟩

lemma mem_outerFold (l l2 acc : List (ℕ × ℕ)) (x : ℕ × ℕ) :
    x ∈ l.foldl
        (fun res pr =>
          l2.foldl
            (fun res2 qr => if pr.1 = qr.2 ∧ pr.2 = qr.1 then res2 ++ [pr] else res2)
            res)
        acc ↔
      x ∈ acc ∨ ∃ pr ∈ l, x = pr ∧ ∃ qr ∈ l2, pr.1 = qr.2 ∧ pr.2 = qr.1 := by
  induction l generalizing acc with
  | nil => simp
  | cons hd tl ih =>
    rw [List.foldl_cons, ih, mem_innerFold]
    simp only [List.mem_cons]
    constructor
    · rintro ((ha | ⟨hx, hex⟩) | ⟨pr, hpr, hx, hex⟩)
      · exact Or.inl ha
      · exact Or.inr ⟨hd, Or.inl rfl, hx, hex⟩
      · exact Or.inr ⟨pr, Or.inr hpr, hx, hex⟩
    · rintro (ha | ⟨pr, (rfl | hpr), hx, hex⟩)
      · exact Or.inl (Or.inl ha)
      · exact Or.inl (Or.inr ⟨hx, hex⟩)
      · exact Or.inr ⟨pr, hpr, hx, hex⟩

/-- Membership characterisation of the RCR list for a cluster pair: `(a,b)`
is produced iff `a` is a representative of `i` whose closest representative
in `j` is `b`, and `b` is a representative of `j` whose closest
representative in `i` is `a`. -/
lemma mem_compute_rcrs_i_j (pts : List Point) (cl : List DbscanCluster)
    (i j a b : ℕ) :
    (a, b) ∈ compute_rcrs_i_j pts cl i j ↔
      (a ∈ (clusterAt cl i).representatives_ ∧
        b = closest_representative pts (clusterAt cl j) (pointAt pts a)) ∧
      (b ∈ (clusterAt cl j).representatives_ ∧
        a = closest_representative pts (clusterAt cl i) (pointAt pts b)) := by
  unfold compute_rcrs_i_j
  rw [mem_outerFold]
  simp only [List.not_mem_nil, false_or, List.mem_map]
  constructor
  · rintro ⟨pr, ⟨u, hu, rfl⟩, heq, qr, ⟨w, hw, rfl⟩, h1, h2⟩
    simp only [Prod.mk.injEq] at heq h1 h2
    obtain ⟨rfl, rfl⟩ := heq
    subst h1
    refine ⟨⟨hu, rfl⟩, ?_, ?_⟩
    · rw [h2]; exact hw
    · rw [h2]
  · rintro ⟨⟨ha, rfl⟩, hb, hab⟩
    refine ⟨_, ⟨a, ha, rfl⟩, rfl, _, ⟨_, hb, rfl⟩, by simp [← hab], rfl⟩

/-- Claim C7: for distinct clusters `i` and `j`, the set of pairs produced by the
RCR matching of `(i, j)` is the mirror image of the set produced by the
matching of `(j, i)`. -/
theorem rcr_mirror (pts : List Point) (cl : List DbscanCluster) (i j : ℕ)
    (_h : i ≠ j) (a b : ℕ) :
    (a, b) ∈ compute_rcrs_i_j pts cl i j ↔
      (b, a) ∈ compute_rcrs_i_j pts cl j i := by
  rw [mem_compute_rcrs_i_j, mem_compute_rcrs_i_j]
  tauto

/-- Witness for `rcr_mirror` on a concrete two-cluster instance. -/
theorem rcr_mirror_witness :
    (0 : ℕ) ≠ 1 ∧
      ((0, 1) ∈ compute_rcrs_i_j pts7 cl7 0 1 ↔
        (1, 0) ∈ compute_rcrs_i_j pts7 cl7 1 0) :=
  ⟨by decide, rcr_mirror pts7 cl7 0 1 (by decide) 0 1⟩

/-! ## C9 — the compactness sampling schedule -/

/-- Evaluation of `adjacentChangeSum` on an eight-element list. -/
lemma adjacentChangeSum_eight (a b c d e f g h : ℝ) :
    adjacentChangeSum [a, b, c, d, e, f, g, h] =
      |b - a| + |c - b| + |d - c| + |e - d| + |f - e| + |g - f| + |h - g| := by
  show (0 : ℝ) + |b - a| + |c - b| + |d - c| + |e - d| + |f - e| + |g - f| +
      |h - g| =
    |b - a| + |c - b| + |d - c| + |e - d| + |f - e| + |g - f| + |h - g|
  ring

/-- Claim C9: compactness is the arithmetic mean of `intra_cluster_density` over
exactly the eight shrink factors `0.1 … 0.8`, and the intra-cluster density
change is the sum of the seven adjacent absolute differences divided by
`7`. -/
theorem compactness_schedule (st : CDbw) :
    (compactness_and_intra_density_changes st).1 =
      (intra_cluster_density st 0.1 + intra_cluster_density st 0.2 +
        intra_cluster_density st 0.3 + intra_cluster_density st 0.4 +
        intra_cluster_density st 0.5 + intra_cluster_density st 0.6 +
        intra_cluster_density st 0.7 + intra_cluster_density st 0.8) / 8 ∧
    (compactness_and_intra_density_changes st).2 =
      (|intra_cluster_density st 0.2 - intra_cluster_density st 0.1| +
        |intra_cluster_density st 0.3 - intra_cluster_density st 0.2| +
        |intra_cluster_density st 0.4 - intra_cluster_density st 0.3| +
        |intra_cluster_density st 0.5 - intra_cluster_density st 0.4| +
        |intra_cluster_density st 0.6 - intra_cluster_density st 0.5| +
        |intra_cluster_density st 0.7 - intra_cluster_density st 0.6| +
        |intra_cluster_density st 0.8 - intra_cluster_density st 0.7|) / 7 := by
  unfold compactness_and_intra_density_changes
  rw [sValues_eq]
  constructor
  · simp only [List.map_cons, List.map_nil, List.foldl_cons, List.foldl_nil]
    ring_nf
  · simp only [List.map_cons, List.map_nil]
    rw [adjacentChangeSum_eight]

/-! ## C6 — no validation of the representative count -/

/-- Claim C6, amended: neither the constructor nor `compute` validates the
representative count: for every engine whose cluster count is not 1,
`compute r` runs the scoring pipeline and returns a score for **every**
`r`, including `r = 0` (the constructor does not even receive `r`). -/
theorem compute_accepts_any_r (st : CDbw) (r : ℕ)
    (h : st.p_.num_clusters ≠ 1) :
    ∃ x st2, compute st r = (.score x, st2) := by
  unfold compute
  rw [if_neg h]
  exact ⟨_, _, rfl⟩

/-- Witness for `compute_accepts_any_r` on the two-cluster engine. -/
theorem compute_accepts_any_r_witness :
    engine0.p_.num_clusters ≠ 1 ∧
      ∃ x st2, compute engine0 3 = (.score x, st2) :=
  ⟨by norm_num [engine0, mkCDbw, P1],
   compute_accepts_any_r engine0 3 (by norm_num [engine0, mkCDbw, P1])⟩

/-! ## Evaluation of the concrete engine `engine0` -/

lemma pts1_at0 : pointAt pts1 0 = ⟨0, 0⟩ := rfl

lemma pts1_at1 : pointAt pts1 1 = ⟨2, 0⟩ := rfl

lemma pts1_at2 : pointAt pts1 2 = ⟨4, 0⟩ := rfl

lemma pts1_at3 : pointAt pts1 3 = ⟨100, 0⟩ := rfl

lemma pts1_at4 : pointAt pts1 4 = ⟨101, 0⟩ := rfl

lemma centroid_A0 : centroidOf pts1 [0, 1, 2] = ⟨2, 0⟩ := by
  unfold centroidOf sumCentroid
  rw [if_pos (by norm_num)]
  norm_num [List.foldl_cons, List.foldl_nil, pts1_at0, pts1_at1, pts1_at2,
    Point.add, Point.divScalar, Point.mk.injEq]

lemma centroid_A1 : centroidOf pts1 [3, 4] = ⟨201 / 2, 0⟩ := by
  unfold centroidOf sumCentroid
  rw [if_pos (by norm_num)]
  norm_num [List.foldl_cons, List.foldl_nil, pts1_at3, pts1_at4,
    Point.add, Point.divScalar, Point.mk.injEq]

lemma compute_data_A0 :
    compute_data pts1 ⟨[0, 1, 2], ⟨0, 0⟩, [], 0⟩ = clA0 := by
  unfold compute_data
  rw [if_neg (by norm_num)]
  unfold clA0
  simp only [DbscanCluster.mk.injEq]
  refine ⟨trivial, centroid_A0, trivial, ?_⟩
  unfold stdevNumerator stdevDenominator
  rw [show (⟨[0, 1, 2], ⟨0, 0⟩, [], 0⟩ : DbscanCluster).cluster_points_ =
    [0, 1, 2] from rfl, centroid_A0]
  unfold sumSquares
  norm_num [List.foldl_cons, List.foldl_nil, pts1_at0, pts1_at1, pts1_at2,
    distance_horizontal, sqrt_four]

lemma compute_data_A1 :
    compute_data pts1 ⟨[3, 4], ⟨0, 0⟩, [], 0⟩ = clA1 := by
  unfold compute_data
  rw [if_neg (by norm_num)]
  unfold clA1
  simp only [DbscanCluster.mk.injEq]
  refine ⟨trivial, centroid_A1, trivial, ?_⟩
  unfold stdevNumerator stdevDenominator
  rw [show (⟨[3, 4], ⟨0, 0⟩, [], 0⟩ : DbscanCluster).cluster_points_ =
    [3, 4] from rfl, centroid_A1]
  unfold sumSquares
  norm_num [List.foldl_cons, List.foldl_nil, pts1_at3, pts1_at4,
    distance_horizontal]

lemma create_clusters_eval : create_clusters P1 pts1 = [clA0, clA1] := by
  unfold create_clusters
  rw [show addPoints P1 (List.replicate P1.num_clusters default) =
    [⟨[0, 1, 2], ⟨0, 0⟩, [], 0⟩, ⟨[3, 4], ⟨0, 0⟩, [], 0⟩] from rfl]
  rw [List.map_cons, List.map_cons, List.map_nil, compute_data_A0,
    compute_data_A1]

lemma engine0_eq :
    engine0 =
      { p_ := P1, points_ := pts1, clusters_ := [clA0, clA1],
        RCRs_ := fun _ _ => [], r_ := 0, cdbw_ := 0, separation_ := 0,
        compactness_ := 0, cohesion_ := 0,
        intra_cluster_density_change_ := 0 } := by
  unfold engine0 mkCDbw
  rw [create_clusters_eval]

/-- Distance from a point to itself is zero. -/
lemma distance_self (p : Point) : Point.distance p p = 0 := by
  simp [Point.distance]

lemma dA0A : Point.distance ⟨2, 0⟩ ⟨0, 0⟩ = 2 := by
  rw [distance_horizontal]; norm_num

lemma dA0B : Point.distance ⟨2, 0⟩ ⟨2, 0⟩ = 0 := distance_self _

lemma dA0C : Point.distance ⟨2, 0⟩ ⟨4, 0⟩ = 2 := by
  rw [distance_horizontal]; norm_num

lemma dA1A : Point.distance ⟨201 / 2, 0⟩ ⟨100, 0⟩ = 1 / 2 := by
  rw [distance_horizontal]; norm_num

lemma dA1B : Point.distance ⟨201 / 2, 0⟩ ⟨101, 0⟩ = 1 / 2 := by
  rw [distance_horizontal]; norm_num

lemma dB0A : Point.distance ⟨0, 0⟩ ⟨0, 0⟩ = 0 := distance_self _

lemma dB0B : Point.distance ⟨0, 0⟩ ⟨2, 0⟩ = 2 := by
  rw [distance_horizontal]; norm_num

lemma dB0C : Point.distance ⟨0, 0⟩ ⟨4, 0⟩ = 4 := by
  rw [distance_horizontal]; norm_num

lemma dB1A : Point.distance ⟨100, 0⟩ ⟨100, 0⟩ = 0 := distance_self _

lemma dB1B : Point.distance ⟨100, 0⟩ ⟨101, 0⟩ = 1 := by
  rw [distance_horizontal]; norm_num

lemma dSep1 : Point.distance ⟨0, 0⟩ ⟨100, 0⟩ = 100 := by
  rw [distance_horizontal]; norm_num

lemma dSep1r : Point.distance ⟨100, 0⟩ ⟨0, 0⟩ = 100 := by
  rw [distance_horizontal]; norm_num

lemma dSep2 : Point.distance ⟨4, 0⟩ ⟨101, 0⟩ = 97 := by
  rw [distance_horizontal]; norm_num

lemma dSep2r : Point.distance ⟨101, 0⟩ ⟨4, 0⟩ = 97 := by
  rw [distance_horizontal]; norm_num

/-! ## Evaluation of representative selection on the concrete clusters -/

lemma choose_A0 : choose_representatives pts1 clA0 1 = clB0 := by
  unfold choose_representatives clA0 clB0
  rw [if_neg (by norm_num)]
  rw [show List.range 1 = [0] from rfl]
  simp only [List.foldl_cons, List.foldl_nil]
  unfold repStep scanReps
  rw [show List.range (([0, 1, 2] : List ℕ).length) = [0, 1, 2] from rfl]
  norm_num [List.foldl_cons, List.foldl_nil, pts1_at0, pts1_at1, pts1_at2,
    dA0A, dA0B, dA0C, dB0A, dB0B, dB0C, dblMin, DbscanCluster.mk.injEq,
    Point.mk.injEq]

lemma choose_A1 : choose_representatives pts1 clA1 1 = clB1 := by
  unfold choose_representatives clA1 clB1
  rw [if_neg (by norm_num)]
  rw [show List.range 1 = [0] from rfl]
  simp only [List.foldl_cons, List.foldl_nil]
  unfold repStep scanReps
  rw [show List.range (([3, 4] : List ℕ).length) = [0, 1] from rfl]
  norm_num [List.foldl_cons, List.foldl_nil, pts1_at3, pts1_at4,
    dA1A, dA1B, dB1A, dB1B, dblMin, DbscanCluster.mk.injEq, Point.mk.injEq]

lemma choose_B0 : choose_representatives pts1 clB0 1 = clC0 := by
  unfold choose_representatives clB0 clC0
  rw [if_neg (by norm_num)]
  rw [show List.range 1 = [0] from rfl]
  simp only [List.foldl_cons, List.foldl_nil]
  unfold repStep scanReps
  rw [show List.range (([0, 1, 2] : List ℕ).length) = [0, 1, 2] from rfl]
  norm_num [List.foldl_cons, List.foldl_nil, pts1_at0, pts1_at1, pts1_at2,
    dA0A, dA0B, dA0C, dB0A, dB0B, dB0C, dblMin, DbscanCluster.mk.injEq,
    Point.mk.injEq]

lemma choose_B1 : choose_representatives pts1 clB1 1 = clC1 := by
  unfold choose_representatives clB1 clC1
  rw [if_neg (by norm_num)]
  rw [show List.range 1 = [0] from rfl]
  simp only [List.foldl_cons, List.foldl_nil]
  unfold repStep scanReps
  rw [show List.range (([3, 4] : List ℕ).length) = [0, 1] from rfl]
  norm_num [List.foldl_cons, List.foldl_nil, pts1_at3, pts1_at4,
    dA1A, dA1B, dB1A, dB1B, dblMin, DbscanCluster.mk.injEq, Point.mk.injEq]

/-- Claim C2, counterexample: choosing one representative from the three-member
cluster `clA0` overwrites the stored centroid (it becomes point 0,
`(0,0)`, instead of the original `(2,0)`): `choose_representatives` does
not modify only the representatives field. -/
theorem choose_representatives_moves_centroid :
    (choose_representatives pts1 clA0 1).centroid_ ≠ clA0.centroid_ := by
  rw [choose_A0]
  unfold clA0 clB0
  simp only [Point.mk.injEq]
  norm_num

/-! ## C4 — degenerate farthest-first selection -/

lemma pts2_at0 : pointAt pts2 0 = ⟨0, 0⟩ := rfl

lemma pts2_at1 : pointAt pts2 1 = ⟨1, 0⟩ := rfl

lemma pts2_at2 : pointAt pts2 2 = ⟨1, 0⟩ := rfl

lemma pts2_at3 : pointAt pts2 3 = ⟨1, 0⟩ := rfl

/-- Claim C4, failing input: on a cluster whose three members all coincide with
the centroid, every candidate distance is `0`, which is **not** greater
than the `max_distance` initial value `DBL_MIN` (a positive number), so no
candidate is ever selected: the loop returns the stale initial id `0` —
a point index that is not even a member of the cluster. -/
theorem choose_representatives_returns_nonmember :
    (choose_representatives pts2 clDup 1).representatives_ = [0] ∧
      (0 : ℕ) ∉ clDup.cluster_points_ := by
  constructor
  · unfold choose_representatives clDup
    rw [if_neg (by norm_num)]
    rw [show List.range 1 = [0] from rfl]
    simp only [List.foldl_cons, List.foldl_nil]
    unfold repStep scanReps
    rw [show List.range (([1, 2, 3] : List ℕ).length) = [0, 1, 2] from rfl]
    norm_num [List.foldl_cons, List.foldl_nil, pts2_at1, pts2_at2, pts2_at3,
      distance_self, dblMin]
  · decide

/-! ## RCR evaluation on the concrete states -/

lemma closest_single (pts : List Point) (c : DbscanCluster) (p : Point) (x : ℕ)
    (h : c.representatives_ = [x]) : closest_representative pts c p = x := by
  unfold closest_representative
  rw [h]
  rfl

lemma rcrs_B01 : compute_rcrs_i_j pts1 [clB0, clB1] 0 1 = [(0, 3)] := by
  unfold compute_rcrs_i_j
  rw [show clusterAt [clB0, clB1] 0 = clB0 from rfl,
    show clusterAt [clB0, clB1] 1 = clB1 from rfl]
  rw [show clB0.representatives_ = [0] from rfl,
    show clB1.representatives_ = [3] from rfl]
  simp only [List.map_cons, List.map_nil,
    closest_single pts1 clB0 _ 0 rfl, closest_single pts1 clB1 _ 3 rfl,
    List.foldl_cons, List.foldl_nil]
  norm_num

lemma rcrs_B10 : compute_rcrs_i_j pts1 [clB0, clB1] 1 0 = [(3, 0)] := by
  unfold compute_rcrs_i_j
  rw [show clusterAt [clB0, clB1] 0 = clB0 from rfl,
    show clusterAt [clB0, clB1] 1 = clB1 from rfl]
  rw [show clB0.representatives_ = [0] from rfl,
    show clB1.representatives_ = [3] from rfl]
  simp only [List.map_cons, List.map_nil,
    closest_single pts1 clB0 _ 0 rfl, closest_single pts1 clB1 _ 3 rfl,
    List.foldl_cons, List.foldl_nil]
  norm_num

lemma rcrs_C01 : compute_rcrs_i_j pts1 [clC0, clC1] 0 1 = [(2, 4)] := by
  unfold compute_rcrs_i_j
  rw [show clusterAt [clC0, clC1] 0 = clC0 from rfl,
    show clusterAt [clC0, clC1] 1 = clC1 from rfl]
  rw [show clC0.representatives_ = [2] from rfl,
    show clC1.representatives_ = [4] from rfl]
  simp only [List.map_cons, List.map_nil,
    closest_single pts1 clC0 _ 2 rfl, closest_single pts1 clC1 _ 4 rfl,
    List.foldl_cons, List.foldl_nil]
  norm_num

lemma rcrs_C10 : compute_rcrs_i_j pts1 [clC0, clC1] 1 0 = [(4, 2)] := by
  unfold compute_rcrs_i_j
  rw [show clusterAt [clC0, clC1] 0 = clC0 from rfl,
    show clusterAt [clC0, clC1] 1 = clC1 from rfl]
  rw [show clC0.representatives_ = [2] from rfl,
    show clC1.representatives_ = [4] from rfl]
  simp only [List.map_cons, List.map_nil,
    closest_single pts1 clC0 _ 2 rfl, closest_single pts1 clC1 _ 4 rfl,
    List.foldl_cons, List.foldl_nil]
  norm_num

lemma compute_rcrs_B (i j : ℕ) :
    compute_rcrs pts1 [clB0, clB1] 2 i j =
      if i < 2 ∧ j < 2 ∧ i ≠ j then compute_rcrs_i_j pts1 [clB0, clB1] i j
      else [] := rfl

lemma compute_rcrs_B01 : compute_rcrs pts1 [clB0, clB1] 2 0 1 = [(0, 3)] := by
  rw [compute_rcrs_B, if_pos (by norm_num), rcrs_B01]

lemma compute_rcrs_B10 : compute_rcrs pts1 [clB0, clB1] 2 1 0 = [(3, 0)] := by
  rw [compute_rcrs_B, if_pos (by norm_num), rcrs_B10]

lemma compute_rcrs_C (i j : ℕ) :
    compute_rcrs pts1 [clC0, clC1] 2 i j =
      if i < 2 ∧ j < 2 ∧ i ≠ j then compute_rcrs_i_j pts1 [clC0, clC1] i j
      else [] := rfl

lemma compute_rcrs_C01 : compute_rcrs pts1 [clC0, clC1] 2 0 1 = [(2, 4)] := by
  rw [compute_rcrs_C, if_pos (by norm_num), rcrs_C01]

lemma compute_rcrs_C10 : compute_rcrs pts1 [clC0, clC1] 2 1 0 = [(4, 2)] := by
  rw [compute_rcrs_C, if_pos (by norm_num), rcrs_C10]

/-! ## Scoring evaluation after the first representative selection -/

lemma not_dblMin_lt_zero : ¬ (dblMin < 0) := not_lt.mpr dblMin_pos.le

lemma card2_B (st : CDbw) (hp : st.points_ = pts1) (hq : st.p_ = P1)
    (hc : st.clusters_ = [clB0, clB1]) (i j : ℕ) :
    cardinality2 st ⟨50, 0⟩ (3 / 2) i j = 0 := by
  simp only [cardinality2, range_query, cidMatches]
  rw [hp, hq, hc]
  rw [show List.range pts1.length = [0, 1, 2, 3, 4] from rfl]
  norm_num [pts1_at0, pts1_at1, pts1_at2, pts1_at3, pts1_at4,
    List.filter_cons, P1]

lemma density_between_B01 (st : CDbw) (hp : st.points_ = pts1)
    (hq : st.p_ = P1) (hc : st.clusters_ = [clB0, clB1])
    (hR : st.RCRs_ = compute_rcrs pts1 [clB0, clB1] 2) :
    density_between_clusters st 0 1 = 0 := by
  simp only [density_between_clusters]
  rw [hp, hc, hR, compute_rcrs_B01]
  rw [show clusterAt [clB0, clB1] 0 = clB0 from rfl,
    show clusterAt [clB0, clB1] 1 = clB1 from rfl,
    show clB0.stdev_ = 2 from rfl,
    show clB1.stdev_ = Real.sqrt (1 / 2) from rfl, mul_self_sqrt_half]
  rw [show ((2 : ℝ) * 2 + 1 / 2) / 2 = 9 / 4 by norm_num, sqrt_nine_div_four]
  simp only [List.foldl_cons, List.foldl_nil]
  rw [show ((pointAt pts1 (0, 3).1).add (pointAt pts1 (0, 3).2)).divScalar 2 =
      (⟨50, 0⟩ : Point) by
    norm_num [pts1_at0, pts1_at3, Point.add, Point.divScalar, Point.mk.injEq]]
  rw [card2_B st hp hq hc 0 1]
  norm_num

lemma density_between_B10 (st : CDbw) (hp : st.points_ = pts1)
    (hq : st.p_ = P1) (hc : st.clusters_ = [clB0, clB1])
    (hR : st.RCRs_ = compute_rcrs pts1 [clB0, clB1] 2) :
    density_between_clusters st 1 0 = 0 := by
  simp only [density_between_clusters]
  rw [hp, hc, hR, compute_rcrs_B10]
  rw [show clusterAt [clB0, clB1] 0 = clB0 from rfl,
    show clusterAt [clB0, clB1] 1 = clB1 from rfl,
    show clB0.stdev_ = 2 from rfl,
    show clB1.stdev_ = Real.sqrt (1 / 2) from rfl, mul_self_sqrt_half]
  rw [show (((1 : ℝ) / 2 + 2 * 2) / 2 : ℝ) = 9 / 4 by norm_num]
  rw [sqrt_nine_div_four]
  simp only [List.foldl_cons, List.foldl_nil]
  rw [show ((pointAt pts1 (3, 0).1).add (pointAt pts1 (3, 0).2)).divScalar 2 =
      (⟨50, 0⟩ : Point) by
    norm_num [pts1_at0, pts1_at3, Point.add, Point.divScalar, Point.mk.injEq]]
  rw [card2_B st hp hq hc 1 0]
  norm_num

lemma inter_density_B (st : CDbw) (hp : st.points_ = pts1) (hq : st.p_ = P1)
    (hc : st.clusters_ = [clB0, clB1])
    (hR : st.RCRs_ = compute_rcrs pts1 [clB0, clB1] 2) :
    inter_cluster_density st = dblMin := by
  simp only [inter_cluster_density]
  rw [hc]
  rw [show List.range ([clB0, clB1] : List DbscanCluster).length = [0, 1]
    from rfl]
  simp only [List.foldl_cons, List.foldl_nil]
  rw [density_between_B01 st hp hq hc hR, density_between_B10 st hp hq hc hR]
  norm_num [not_dblMin_lt_zero]

lemma distance_between_B01 (st : CDbw) (hp : st.points_ = pts1)
    (hR : st.RCRs_ = compute_rcrs pts1 [clB0, clB1] 2) :
    distance_between_clusters st 0 1 = 100 := by
  simp only [distance_between_clusters, sumPairDistances]
  rw [hp, hR, compute_rcrs_B01]
  simp only [List.foldl_cons, List.foldl_nil, List.length_cons, List.length_nil]
  norm_num [pts1_at0, pts1_at3, dSep1]

lemma distance_between_B10 (st : CDbw) (hp : st.points_ = pts1)
    (hR : st.RCRs_ = compute_rcrs pts1 [clB0, clB1] 2) :
    distance_between_clusters st 1 0 = 100 := by
  simp only [distance_between_clusters, sumPairDistances]
  rw [hp, hR, compute_rcrs_B10]
  simp only [List.foldl_cons, List.foldl_nil, List.length_cons, List.length_nil]
  norm_num [pts1_at0, pts1_at3, dSep1r]

lemma sep_B (st : CDbw) (hp : st.points_ = pts1) (hq : st.p_ = P1)
    (hc : st.clusters_ = [clB0, clB1])
    (hR : st.RCRs_ = compute_rcrs pts1 [clB0, clB1] 2) :
    compute_separation st = 100 / (1 + dblMin) := by
  simp only [compute_separation]
  rw [hc]
  rw [show List.range ([clB0, clB1] : List DbscanCluster).length = [0, 1]
    from rfl]
  simp only [List.foldl_cons, List.foldl_nil]
  rw [distance_between_B01 st hp hR, distance_between_B10 st hp hR,
    inter_density_B st hp hq hc hR]
  norm_num [lt_dblMax (by norm_num : (100 : ℝ) ≤ 1000)]

lemma card1_B0 (st : CDbw) (hp : st.points_ = pts1) (hq : st.p_ = P1)
    (hc : st.clusters_ = [clB0, clB1]) :
    cardinality1 st ⟨0, 0⟩ 2 0 = 2 / 3 := by
  simp only [cardinality1, range_query, cidMatches]
  rw [hp, hq, hc]
  rw [show List.range pts1.length = [0, 1, 2, 3, 4] from rfl]
  rw [show clusterAt [clB0, clB1] 0 = clB0 from rfl]
  norm_num [pts1_at0, pts1_at1, pts1_at2, pts1_at3, pts1_at4, P1,
    List.filter_cons, clB0]

lemma card1_B1 (st : CDbw) (hp : st.points_ = pts1) (hq : st.p_ = P1)
    (hc : st.clusters_ = [clB0, clB1]) :
    cardinality1 st ⟨100, 0⟩ (Real.sqrt (1 / 2)) 1 = 1 / 2 := by
  simp only [cardinality1, range_query, cidMatches, mul_self_sqrt_half]
  rw [hp, hq, hc]
  rw [show List.range pts1.length = [0, 1, 2, 3, 4] from rfl]
  rw [show clusterAt [clB0, clB1] 1 = clB1 from rfl]
  norm_num [pts1_at0, pts1_at1, pts1_at2, pts1_at3, pts1_at4, P1,
    List.filter_cons, clB1]

lemma density_B (st : CDbw) (hp : st.points_ = pts1) (hq : st.p_ = P1)
    (hc : st.clusters_ = [clB0, clB1]) (hr : st.r_ = 1) (s : ℝ) :
    density st s = 7 / 6 := by
  have h0 : shrunk_representatives pts1 clB0 s = [⟨0, 0⟩] := by
    simp only [shrunk_representatives]
    rw [show clB0.representatives_ = [0] from rfl,
      show clB0.centroid_ = (⟨0, 0⟩ : Point) from rfl]
    norm_num [pts1_at0, Point.mk.injEq]
  have h1 : shrunk_representatives pts1 clB1 s = [⟨100, 0⟩] := by
    simp only [shrunk_representatives]
    rw [show clB1.representatives_ = [3] from rfl,
      show clB1.centroid_ = (⟨100, 0⟩ : Point) from rfl]
    norm_num [pts1_at3, Point.mk.injEq]
  simp only [density]
  rw [hp, hc, hr]
  rw [show List.range ([clB0, clB1] : List DbscanCluster).length = [0, 1]
    from rfl]
  simp only [List.foldl_cons, List.foldl_nil]
  rw [show clusterAt [clB0, clB1] 0 = clB0 from rfl,
    show clusterAt [clB0, clB1] 1 = clB1 from rfl, h0, h1]
  simp only [List.foldl_cons, List.foldl_nil]
  rw [show clB0.stdev_ = 2 from rfl,
    show clB1.stdev_ = Real.sqrt (1 / 2) from rfl,
    card1_B0 st hp hq hc, card1_B1 st hp hq hc]
  norm_num

lemma intra_B (st : CDbw) (hp : st.points_ = pts1) (hq : st.p_ = P1)
    (hc : st.clusters_ = [clB0, clB1]) (hr : st.r_ = 1) (s : ℝ) :
    intra_cluster_density st s = 7 / 18 := by
  simp only [intra_cluster_density]
  rw [hc, density_B st hp hq hc hr s]
  simp only [List.foldl_cons, List.foldl_nil]
  rw [show clB0.stdev_ = 2 from rfl,
    show clB1.stdev_ = Real.sqrt (1 / 2) from rfl, mul_self_sqrt_half]
  rw [show ((0 : ℝ) + 2 * 2 + 1 / 2) / (([clB0, clB1] :
      List DbscanCluster).length : ℝ) = 9 / 4 by norm_num]
  rw [sqrt_nine_div_four]
  norm_num

lemma compactness_B (st : CDbw) (hp : st.points_ = pts1) (hq : st.p_ = P1)
    (hc : st.clusters_ = [clB0, clB1]) (hr : st.r_ = 1) :
    compactness_and_intra_density_changes st = (7 / 18, 0) := by
  unfold compactness_and_intra_density_changes
  rw [sValues_eq]
  simp only [List.map_cons, List.map_nil, intra_B st hp hq hc hr]
  rw [adjacentChangeSum_eight]
  simp only [List.foldl_cons, List.foldl_nil]
  norm_num

/-- The multi-cluster branch of `compute`, exposed for rewriting. -/
lemma compute_else (st : CDbw) (r : ℕ) (h : ¬ st.p_.num_clusters = 1) :
    compute st r =
      (let cl := st.clusters_.map (fun c => choose_representatives st.points_ c r)
       let st2 : CDbw :=
         { st with
           r_ := r
           clusters_ := cl
           RCRs_ := compute_rcrs st.points_ cl cl.length }
       let sep := compute_separation st2
       let pc := compactness_and_intra_density_changes st2
       let coh := compute_cohesion pc.1 pc.2
       (.score (coh * sep * pc.1),
        { st2 with
           separation_ := sep,
           compactness_ := pc.1,
           cohesion_ := coh,
           intra_cluster_density_change_ := pc.2,
           cdbw_ := coh * sep * pc.1 })) := by
  unfold compute
  rw [if_neg h]

/-- First call: `compute(1)` on the freshly constructed engine returns the
score obtained from separation `100 / (1 + DBL_MIN)` and
compactness = cohesion = `7/18`, leaving the engine with overwritten
centroids. -/
lemma compute1_eval :
    compute engine0 1 =
      (.score (7 / 18 * (100 / (1 + dblMin)) * (7 / 18)), engineAfter1) := by
  rw [engine0_eq, compute_else _ 1 (by norm_num [P1])]
  simp only [List.map_cons, List.map_nil, choose_A0, choose_A1,
    List.length_cons, List.length_nil]
  rw [sep_B _ rfl rfl rfl rfl, compactness_B _ rfl rfl rfl rfl]
  unfold compute_cohesion engineAfter1
  norm_num [Prod.mk.injEq, CDbw.mk.injEq]

/-! ## Scoring evaluation after the second representative selection -/

lemma card2_C (st : CDbw) (hp : st.points_ = pts1) (hq : st.p_ = P1)
    (hc : st.clusters_ = [clC0, clC1]) (i j : ℕ) :
    cardinality2 st ⟨105 / 2, 0⟩ (3 / 2) i j = 0 := by
  simp only [cardinality2, range_query, cidMatches]
  rw [hp, hq, hc]
  rw [show List.range pts1.length = [0, 1, 2, 3, 4] from rfl]
  norm_num [pts1_at0, pts1_at1, pts1_at2, pts1_at3, pts1_at4,
    List.filter_cons, P1]

lemma density_between_C01 (st : CDbw) (hp : st.points_ = pts1)
    (hq : st.p_ = P1) (hc : st.clusters_ = [clC0, clC1])
    (hR : st.RCRs_ = compute_rcrs pts1 [clC0, clC1] 2) :
    density_between_clusters st 0 1 = 0 := by
  simp only [density_between_clusters]
  rw [hp, hc, hR, compute_rcrs_C01]
  rw [show clusterAt [clC0, clC1] 0 = clC0 from rfl,
    show clusterAt [clC0, clC1] 1 = clC1 from rfl,
    show clC0.stdev_ = 2 from rfl,
    show clC1.stdev_ = Real.sqrt (1 / 2) from rfl, mul_self_sqrt_half]
  rw [show ((2 : ℝ) * 2 + 1 / 2) / 2 = 9 / 4 by norm_num, sqrt_nine_div_four]
  simp only [List.foldl_cons, List.foldl_nil]
  rw [show ((pointAt pts1 (2, 4).1).add (pointAt pts1 (2, 4).2)).divScalar 2 =
      (⟨105 / 2, 0⟩ : Point) by
    norm_num [pts1_at2, pts1_at4, Point.add, Point.divScalar, Point.mk.injEq]]
  rw [card2_C st hp hq hc 0 1]
  norm_num

lemma density_between_C10 (st : CDbw) (hp : st.points_ = pts1)
    (hq : st.p_ = P1) (hc : st.clusters_ = [clC0, clC1])
    (hR : st.RCRs_ = compute_rcrs pts1 [clC0, clC1] 2) :
    density_between_clusters st 1 0 = 0 := by
  simp only [density_between_clusters]
  rw [hp, hc, hR, compute_rcrs_C10]
  rw [show clusterAt [clC0, clC1] 0 = clC0 from rfl,
    show clusterAt [clC0, clC1] 1 = clC1 from rfl,
    show clC0.stdev_ = 2 from rfl,
    show clC1.stdev_ = Real.sqrt (1 / 2) from rfl, mul_self_sqrt_half]
  rw [show (((1 : ℝ) / 2 + 2 * 2) / 2 : ℝ) = 9 / 4 by norm_num]
  rw [sqrt_nine_div_four]
  simp only [List.foldl_cons, List.foldl_nil]
  rw [show ((pointAt pts1 (4, 2).1).add (pointAt pts1 (4, 2).2)).divScalar 2 =
      (⟨105 / 2, 0⟩ : Point) by
    norm_num [pts1_at2, pts1_at4, Point.add, Point.divScalar, Point.mk.injEq]]
  rw [card2_C st hp hq hc 1 0]
  norm_num

lemma inter_density_C (st : CDbw) (hp : st.points_ = pts1) (hq : st.p_ = P1)
    (hc : st.clusters_ = [clC0, clC1])
    (hR : st.RCRs_ = compute_rcrs pts1 [clC0, clC1] 2) :
    inter_cluster_density st = dblMin := by
  simp only [inter_cluster_density]
  rw [hc]
  rw [show List.range ([clC0, clC1] : List DbscanCluster).length = [0, 1]
    from rfl]
  simp only [List.foldl_cons, List.foldl_nil]
  rw [density_between_C01 st hp hq hc hR, density_between_C10 st hp hq hc hR]
  norm_num [not_dblMin_lt_zero]

lemma distance_between_C01 (st : CDbw) (hp : st.points_ = pts1)
    (hR : st.RCRs_ = compute_rcrs pts1 [clC0, clC1] 2) :
    distance_between_clusters st 0 1 = 97 := by
  simp only [distance_between_clusters, sumPairDistances]
  rw [hp, hR, compute_rcrs_C01]
  simp only [List.foldl_cons, List.foldl_nil, List.length_cons, List.length_nil]
  norm_num [pts1_at2, pts1_at4, dSep2]

lemma distance_between_C10 (st : CDbw) (hp : st.points_ = pts1)
    (hR : st.RCRs_ = compute_rcrs pts1 [clC0, clC1] 2) :
    distance_between_clusters st 1 0 = 97 := by
  simp only [distance_between_clusters, sumPairDistances]
  rw [hp, hR, compute_rcrs_C10]
  simp only [List.foldl_cons, List.foldl_nil, List.length_cons, List.length_nil]
  norm_num [pts1_at2, pts1_at4, dSep2r]

lemma sep_C (st : CDbw) (hp : st.points_ = pts1) (hq : st.p_ = P1)
    (hc : st.clusters_ = [clC0, clC1])
    (hR : st.RCRs_ = compute_rcrs pts1 [clC0, clC1] 2) :
    compute_separation st = 97 / (1 + dblMin) := by
  simp only [compute_separation]
  rw [hc]
  rw [show List.range ([clC0, clC1] : List DbscanCluster).length = [0, 1]
    from rfl]
  simp only [List.foldl_cons, List.foldl_nil]
  rw [distance_between_C01 st hp hR, distance_between_C10 st hp hR,
    inter_density_C st hp hq hc hR]
  norm_num [lt_dblMax (by norm_num : (97 : ℝ) ≤ 1000)]

lemma card1_C0 (st : CDbw) (hp : st.points_ = pts1) (hq : st.p_ = P1)
    (hc : st.clusters_ = [clC0, clC1]) :
    cardinality1 st ⟨4, 0⟩ 2 0 = 2 / 3 := by
  simp only [cardinality1, range_query, cidMatches]
  rw [hp, hq, hc]
  rw [show List.range pts1.length = [0, 1, 2, 3, 4] from rfl]
  rw [show clusterAt [clC0, clC1] 0 = clC0 from rfl]
  norm_num [pts1_at0, pts1_at1, pts1_at2, pts1_at3, pts1_at4, P1,
    List.filter_cons, clC0]

lemma card1_C1 (st : CDbw) (hp : st.points_ = pts1) (hq : st.p_ = P1)
    (hc : st.clusters_ = [clC0, clC1]) :
    cardinality1 st ⟨101, 0⟩ (Real.sqrt (1 / 2)) 1 = 1 / 2 := by
  simp only [cardinality1, range_query, cidMatches, mul_self_sqrt_half]
  rw [hp, hq, hc]
  rw [show List.range pts1.length = [0, 1, 2, 3, 4] from rfl]
  rw [show clusterAt [clC0, clC1] 1 = clC1 from rfl]
  norm_num [pts1_at0, pts1_at1, pts1_at2, pts1_at3, pts1_at4, P1,
    List.filter_cons, clC1]

lemma density_C (st : CDbw) (hp : st.points_ = pts1) (hq : st.p_ = P1)
    (hc : st.clusters_ = [clC0, clC1]) (hr : st.r_ = 1) (s : ℝ) :
    density st s = 7 / 6 := by
  have h0 : shrunk_representatives pts1 clC0 s = [⟨4, 0⟩] := by
    simp only [shrunk_representatives]
    rw [show clC0.representatives_ = [2] from rfl,
      show clC0.centroid_ = (⟨4, 0⟩ : Point) from rfl]
    norm_num [pts1_at2, Point.mk.injEq]
  have h1 : shrunk_representatives pts1 clC1 s = [⟨101, 0⟩] := by
    simp only [shrunk_representatives]
    rw [show clC1.representatives_ = [4] from rfl,
      show clC1.centroid_ = (⟨101, 0⟩ : Point) from rfl]
    norm_num [pts1_at4, Point.mk.injEq]
  simp only [density]
  rw [hp, hc, hr]
  rw [show List.range ([clC0, clC1] : List DbscanCluster).length = [0, 1]
    from rfl]
  simp only [List.foldl_cons, List.foldl_nil]
  rw [show clusterAt [clC0, clC1] 0 = clC0 from rfl,
    show clusterAt [clC0, clC1] 1 = clC1 from rfl, h0, h1]
  simp only [List.foldl_cons, List.foldl_nil]
  rw [show clC0.stdev_ = 2 from rfl,
    show clC1.stdev_ = Real.sqrt (1 / 2) from rfl,
    card1_C0 st hp hq hc, card1_C1 st hp hq hc]
  norm_num

lemma intra_C (st : CDbw) (hp : st.points_ = pts1) (hq : st.p_ = P1)
    (hc : st.clusters_ = [clC0, clC1]) (hr : st.r_ = 1) (s : ℝ) :
    intra_cluster_density st s = 7 / 18 := by
  simp only [intra_cluster_density]
  rw [hc, density_C st hp hq hc hr s]
  simp only [List.foldl_cons, List.foldl_nil]
  rw [show clC0.stdev_ = 2 from rfl,
    show clC1.stdev_ = Real.sqrt (1 / 2) from rfl, mul_self_sqrt_half]
  rw [show ((0 : ℝ) + 2 * 2 + 1 / 2) / (([clC0, clC1] :
      List DbscanCluster).length : ℝ) = 9 / 4 by norm_num]
  rw [sqrt_nine_div_four]
  norm_num

lemma compactness_C (st : CDbw) (hp : st.points_ = pts1) (hq : st.p_ = P1)
    (hc : st.clusters_ = [clC0, clC1]) (hr : st.r_ = 1) :
    compactness_and_intra_density_changes st = (7 / 18, 0) := by
  unfold compactness_and_intra_density_changes
  rw [sValues_eq]
  simp only [List.map_cons, List.map_nil, intra_C st hp hq hc hr]
  rw [adjacentChangeSum_eight]
  simp only [List.foldl_cons, List.foldl_nil]
  norm_num

/-- Second call: `compute(1)` on the post-first-call state returns a
different score (separation is now `97 / (1 + DBL_MIN)`), because the first
call overwrote the stored centroids and the representative choice
changed. -/
lemma compute2_fst :
    (compute engineAfter1 1).1 =
      .score (7 / 18 * (97 / (1 + dblMin)) * (7 / 18)) := by
  rw [compute_else _ 1 (by norm_num [engineAfter1, P1])]
  simp only [engineAfter1, List.map_cons, List.map_nil, choose_B0, choose_B1,
    List.length_cons, List.length_nil]
  rw [sep_C _ rfl rfl rfl rfl, compactness_C _ rfl rfl rfl rfl]
  unfold compute_cohesion
  norm_num

/-! ## C1 — compute is not deterministic across repeated calls -/

/-- Claim C1: calling `compute(1)` twice on the same engine with unchanged inputs
does **not** produce identical scores.  On `engine0` the first call returns
`(7/18) · (100/(1+DBL_MIN)) · (7/18)` and the second call returns
`(7/18) · (97/(1+DBL_MIN)) · (7/18)`: `choose_representatives` writes the
last chosen representative into the stored centroid (the
`last_representative` reference aliases `centroid_`), so the second call
starts its farthest-first searches from mutated centroids and selects
different representatives. -/
theorem compute_twice_differs :
    (compute engine0 1).1 =
        CdbwResult.score (7 / 18 * (100 / (1 + dblMin)) * (7 / 18)) ∧
      (compute (compute engine0 1).2 1).1 =
        CdbwResult.score (7 / 18 * (97 / (1 + dblMin)) * (7 / 18)) ∧
      (7 / 18 * (100 / (1 + dblMin)) * (7 / 18) : ℝ) ≠
        7 / 18 * (97 / (1 + dblMin)) * (7 / 18) := by
  refine ⟨by rw [compute1_eval], by rw [compute1_eval]; exact compute2_fst, ?_⟩
  have h1 : (0 : ℝ) < 1 + dblMin := by
    have := dblMin_pos
    linarith
  intro h
  have h2 := mul_right_cancel₀ (by norm_num : (7 : ℝ) / 18 ≠ 0) h
  have h3 := mul_left_cancel₀ (by norm_num : (7 : ℝ) / 18 ≠ 0) h2
  rw [div_eq_div_iff (ne_of_gt h1) (ne_of_gt h1)] at h3
  have h4 := mul_right_cancel₀ (ne_of_gt h1) h3
  norm_num at h4

/-! ## C3 — the pairwise cardinality divides as integers -/

/-- Claim C3: the two-cluster `cardinality` truncates: at the engine over `pts1`,
query point `(0,0)` and radius `1` (one point of clusters 0 ∪ 1 in range,
cluster sizes 3 and 2), the source's `size_t` quotient `1 / 5` is `0`,
while the spec's real-valued quotient is `1/5`.  (The single-cluster
overload multiplies by `1.0` first and divides as doubles, which is what
the spec describes.) -/
theorem cardinality_integer_division :
    cardinality2 engine0 ⟨0, 0⟩ 1 0 1 = 0 ∧
      cardinality2Spec engine0 ⟨0, 0⟩ 1 0 1 = 1 / 5 ∧
      cardinality2 engine0 ⟨0, 0⟩ 1 0 1 ≠
        cardinality2Spec engine0 ⟨0, 0⟩ 1 0 1 := by
  have hA : cardinality2 engine0 ⟨0, 0⟩ 1 0 1 = 0 := by
    simp only [cardinality2, range_query, cidMatches]
    rw [engine0_eq]
    rw [show List.range pts1.length = [0, 1, 2, 3, 4] from rfl]
    rw [show clusterAt [clA0, clA1] 0 = clA0 from rfl,
      show clusterAt [clA0, clA1] 1 = clA1 from rfl]
    norm_num [pts1_at0, pts1_at1, pts1_at2, pts1_at3, pts1_at4,
      List.filter_cons, P1, clA0, clA1]
  have hB : cardinality2Spec engine0 ⟨0, 0⟩ 1 0 1 = 1 / 5 := by
    simp only [cardinality2Spec, range_query, cidMatches]
    rw [engine0_eq]
    rw [show List.range pts1.length = [0, 1, 2, 3, 4] from rfl]
    rw [show clusterAt [clA0, clA1] 0 = clA0 from rfl,
      show clusterAt [clA0, clA1] 1 = clA1 from rfl]
    norm_num [pts1_at0, pts1_at1, pts1_at2, pts1_at3, pts1_at4,
      List.filter_cons, P1, clA0, clA1]
  exact ⟨hA, hB, by rw [hA, hB]; norm_num⟩

/-! ## C6 — `compute(0)` runs the pipeline and returns a score -/

/-- `choose_representatives` with `r = 0` produces an empty representative
list (and touches nothing else: the loop body never runs). -/
lemma choose_representatives_zero (pts : List Point) (c : DbscanCluster) :
    choose_representatives pts c 0 = { c with representatives_ := ([] : List ℕ) } := by
  unfold choose_representatives
  by_cases h : (0 : ℕ) ≥ c.cluster_points_.length
  · rw [if_pos h]
    rw [List.length_eq_zero.mp (Nat.le_zero.mp h)]
  · rw [if_neg h]
    rfl

/-- Claim C6, counterexample: no rejection of `r = 0` exists anywhere.
Construction has already succeeded without ever receiving `r` (the
constructor takes only the partition and the points), and `compute(0)` is
not rejected either: it stores `r_ = 0`, runs representative selection
(every representative list becomes empty) and returns through the normal
scoring path.  The returned value itself is left unexamined: at `r = 0` it
is a division-by-zero artifact (a quiet NaN in IEEE arithmetic) — a double
handed back to the caller, not an error. -/
theorem compute_zero_no_rejection :
    (compute engine0 0).1.isScore = true ∧
      (compute engine0 0).2.r_ = 0 ∧
      (clusterAt (compute engine0 0).2.clusters_ 0).representatives_ = [] ∧
      (clusterAt (compute engine0 0).2.clusters_ 1).representatives_ = [] := by
  rw [engine0_eq, compute_else _ 0 (by norm_num [P1])]
  simp only [List.map_cons, List.map_nil, choose_representatives_zero,
    List.length_cons, List.length_nil]
  refine ⟨?_, ?_, ?_, ?_⟩ <;> trivial

end Muster
